import Mathlib

/-!
# Verification development for `gglogic.py` (boolean logic device simulation)

Shallow embedding of the device/graph evaluation engine of `gglogic.py`:
tri-state signals, the input resolver `_inputState`, the `recursiontrap`
evaluation guard, the simple gates (NOT/AND/NOR/NAND), the SR latch
(`BoolSRFF`) and the JK flip-flop (`BoolJKFF`).

Python values flowing through the engine are `True`, `False` and `None`
("floating"); we model them as `Option Bool` with `none` standing for
`None`/floating.

`gglogic.py` imports `_MathDynamic` from `ggmath`, but the `ggmath.py` in
this repository does not define `_MathDynamic` (nor its `Eval` method).
Where `Eval` is needed it is modelled from the spec (see `enableObjTruthy`
and the convention below): `Eval` coerces an external value into a
zero-argument callable source (a callable is kept as is, a constant is
wrapped into a closure producing it).  Throughout this development a
*constant* source is represented by the signal it produces when called;
device-valued sources are represented explicitly where they occur (see
`SRSource`).
-/

/-- A tri-state Python value: `some true` = `True`, `some false` = `False`,
`none` = `None` (floating). -/
abbrev Sig := Option Bool

/-- Python truthiness of a tri-state value: only `True` is truthy
(`None` and `False` are falsy). -/
def truthy (s : Sig) : Bool := s = some true

/-- Python exceptions that the embedded code can raise. -/
inductive PyErr where
  | conflict   -- `ValueError("Conflicting inputs found")`
  | typeError  -- an uncaught `TypeError`
deriving DecidableEq, Repr

/-- Lines 75-85 of `_BoolDevice._inputState`: count asserted-true and
asserted-false scalars and resolve.  In Python `True == 1` and
`False == 0`, so `scalars.count(True) + scalars.count(1)` counts every
asserted-true scalar twice (and similarly for the zeros); only the
positivity of the counts is ever used. -/
def resolveScalars (scalars : List Sig) : Except PyErr Sig :=
  let ones := 2 * scalars.count (some true)
  let zeros := 2 * scalars.count (some false)
  if ones > 0 ∧ zeros > 0 then .error .conflict
  else if ones > 0 then .ok (some true)
  else if zeros > 0 then .ok (some false)
  else .ok none

/-- The argument of `_BoolDevice._inputState`: either a single zero-argument
source (not iterable), or an actual Python list of such sources.  A constant
source is represented by the signal it evaluates to. -/
inductive PyInput where
  | single (src : Sig)
  | listOf (srcs : List Sig)
deriving DecidableEq, Repr

/-- `_BoolDevice._inputState` (lines 67-85).
`inputs = [].extend(value)` raises `TypeError` for a single (non-iterable)
source, caught by the `except`, so `inputs = [value]` and the scalars are
resolved.  For an actual list, however, `[].extend(value)` *succeeds* and
returns `None` (that is what `list.extend` returns), so `inputs` is bound
to `None` and the comprehension `[v() for v in inputs]` raises an uncaught
`TypeError` (iterating `None`); the earlier `try` block has already
completed and does not catch it. -/
def _inputState : PyInput → Except PyErr Sig
  | .single src => resolveScalars [src]
  | .listOf _ => .error .typeError

/-- The guard state manipulated by `recursiontrap` (fields `ingetvalue` and
`lastget` of a device), together with whatever other state `rest` the
wrapped handler may read or write (e.g. the guards of other devices reached
through recursion). -/
structure TrapState (α σ : Type) where
  ingetvalue : Bool
  lastget : α
  rest : σ
deriving DecidableEq, Repr

/-- `trapmagic`, the wrapper produced by the `recursiontrap` decorator
(lines 8-19).  A handler is a state transformer returning the computed
value; mutation of `self` and of any other reachable state is threaded
explicitly. -/
def trapmagic {α σ : Type} (handler : TrapState α σ → α × TrapState α σ)
    (s : TrapState α σ) : α × TrapState α σ :=
  if s.ingetvalue = false then
    let r := handler { s with ingetvalue := true }
    (r.1, { r.2 with lastget := r.1, ingetvalue := false })
  else
    (s.lastget, { s with ingetvalue := false })

/-- The state established by `_BoolDevice.__init__` (lines 24-39):
positional inputs `In = [None]*mininputqty` (each wrapped by `Eval`),
named inputs `_indict = {name: Eval(None) for name in namedinputs}`,
and the fresh guard fields.  Constant sources are represented by their
signals. -/
structure DeviceInit where
  _input : List Sig
  _indict : List (String × Sig)
  ingetvalue : Bool
  lastget : Sig
deriving DecidableEq, Repr

/-- `_BoolDevice.__init__` for a device with the given minimum input
quantity and named inputs. -/
def mkBoolDevice (mininputqty : Nat) (namedinputs : List String) : DeviceInit :=
  { _input := List.replicate mininputqty none
    _indict := namedinputs.map (fun n => (n, none))
    ingetvalue := false
    lastget := none }

/-- `_BoolDevice.GetInput` (lines 93-94): resolve the named input through
`_inputState`.  A missing key would raise `KeyError`, modelled by `none`. -/
def deviceGetInput (d : DeviceInit) (name : String) : Option (Except PyErr Sig) :=
  (d._indict.lookup name).map (fun src => _inputState (.single src))

/-- A value assigned to the `In` property: either a single non-iterable
source (for which `list(val)` raises the caught `TypeError`) or an
iterable of sources. -/
inductive PyInVal where
  | single (src : Sig)
  | seq (srcs : List Sig)
deriving DecidableEq, Repr

/-- The `In` setter (lines 46-51): `[self.Eval(v) for v in list(val)]`,
falling back to `[self.Eval(val)]` when `val` is not iterable.  Note that
no arity check of any kind is performed. -/
def setIn (d : DeviceInit) (v : PyInVal) : DeviceInit :=
  match v with
  | .single s => { d with _input := [s] }
  | .seq ss => { d with _input := ss }

/-! ## Simple gates over constant sources

Each element of `_input` is a single `Eval`-wrapped source, so every
per-element resolution goes through `_inputState` applied to a single
source.  The gates below embed the `_getvalue` bodies of `BoolNOT`,
`BoolAND`, `BoolNOR` and `BoolNAND` (lines 119-155) for inputs wired to
constant sources; a raised exception propagates out of the loop. -/

/-- `BoolNOT._getvalue` body (lines 122-127): a floating input is treated
as "open" and yields `True`, otherwise the input is negated. -/
def boolNOTgetvalue (in0 : Sig) : Except PyErr Sig :=
  match _inputState (.single in0) with
  | .error e => .error e
  | .ok inval =>
    match inval with
    | none => .ok (some true)
    | some b => .ok (some (!b))

/-- `BoolAND._getvalue` loop (lines 133-137): `if not self._inputState(v):
return False`, with `return True` after the loop. -/
def boolANDgetvalue : List Sig → Except PyErr Sig
  | [] => .ok (some true)
  | v :: rest =>
    match _inputState (.single v) with
    | .error e => .error e
    | .ok r => if !(truthy r) then .ok (some false) else boolANDgetvalue rest

/-- `BoolNOR._getvalue` loop (lines 142-146): `if self._inputState(v):
return False`, with `return True` after the loop. -/
def boolNORgetvalue : List Sig → Except PyErr Sig
  | [] => .ok (some true)
  | v :: rest =>
    match _inputState (.single v) with
    | .error e => .error e
    | .ok r => if truthy r then .ok (some false) else boolNORgetvalue rest

/-- `BoolNAND._getvalue` loop (lines 151-155): `if not self._inputState(v):
return True`, with `return False` after the loop. -/
def boolNANDgetvalue : List Sig → Except PyErr Sig
  | [] => .ok (some false)
  | v :: rest =>
    match _inputState (.single v) with
    | .error e => .error e
    | .ok r => if !(truthy r) then .ok (some true) else boolNANDgetvalue rest

/-! ## `Enable` and `__call__` on a concrete device (`BoolNOT`) -/

/-- Modelled from the spec: `Eval` of `_MathDynamic` is absent from
`src/ggmath.py`; per the spec it is the "total conversion function from
the accepted external source shapes (constant boolean, optional/floating,
callable-returning-signal) into the internal Source representation", and
that internal representation must be a zero-argument callable, because
`_inputState` (line 75) and `BoolJKFF.SetInput` (line 214) call the stored
result with zero arguments.  `__call__` (line 88) tests `if self.Enable:`,
i.e. the Python truthiness of the *source object itself* (a function
object, or a device, neither of which defines `__bool__`/`__len__`) —
which is `True` no matter which signal the source would produce.  The
argument records the signal the enable source resolves to, to document
that the outcome does not depend on it. -/
def enableObjTruthy (_resolved : Sig) : Bool := true

/-- A `BoolNOT` instance with its input wired to a constant source:
the resolved value of the `Eval`-wrapped `Enable` source, the constant
input `In[0]`, and the guard fields.  `getvalueCalls` is instrumentation
counting how often the `_getvalue` body runs (it does not influence any
behaviour). -/
structure NotDev where
  _enable : Sig
  input0 : Sig
  ingetvalue : Bool
  lastget : Sig
  getvalueCalls : Nat
deriving DecidableEq, Repr

/-- `_BoolDevice.__call__` (lines 87-91) on a `BoolNOT`: test the enable
source's object truthiness, then run the `recursiontrap`-wrapped
`_getvalue`.  On an exception inside the handler the guard flag would stay
set; the error is simply propagated here (no claim depends on that state,
and `_inputState` of a single source never raises). -/
def notCall (d : NotDev) : Except PyErr (Sig × NotDev) :=
  if enableObjTruthy d._enable then
    if d.ingetvalue = false then
      match boolNOTgetvalue d.input0 with
      | .error e => .error e
      | .ok v =>
          .ok (v, { d with lastget := v, ingetvalue := false,
                           getvalueCalls := d.getvalueCalls + 1 })
    else .ok (d.lastget, { d with ingetvalue := false })
  else .ok (none, d)

/-! ## The SR latch (`BoolSRFF`, lines 157-189)

The latch owns two gate instances `IC1` and `IC2` (default `BoolNOR`).
`SetInput('R', ref)` sets `IC1.In = ref, IC2`; `SetInput('S', ref)` sets
`IC2.In = ref, IC1`.  `Q()` calls `IC1()`, `Q_()` calls `IC2()`.  An
input of one of the internal gates is either an `Eval`-wrapped constant
or one of the two gate instances themselves. -/

/-- One source in the input list of `IC1`/`IC2`. -/
inductive SRSource where
  | const (s : Sig)
  | ic1
  | ic2
deriving DecidableEq, Repr

/-- The mutable guard state of the pair of internal gates: `ingetvalue`
and `lastget` of `IC1` (`g1`,`l1`) and of `IC2` (`g2`,`l2`). -/
structure SRState where
  g1 : Bool
  l1 : Sig
  g2 : Bool
  l2 : Sig
deriving DecidableEq, Repr

/-- The gate family of the internal pair, as it appears in the `_getvalue`
loops: the loop returns `some stopVal` at the first input whose resolved
value satisfies `stop`, and `some defVal` if the loop completes.
`BoolNOR`: stop on a truthy input, return `False`, default `True`.
`BoolNAND`: stop on a non-truthy input, return `True`, default `False`. -/
structure GateKind where
  stop : Sig → Bool
  stopVal : Bool
  defVal : Bool

def norKind : GateKind := { stop := fun r => truthy r, stopVal := false, defVal := true }

def nandKind : GateKind := { stop := fun r => !(truthy r), stopVal := true, defVal := false }

/-- `ingetvalue` of the gate selected by `w` (`true` = `IC1`). -/
def getG (w : Bool) (st : SRState) : Bool := if w then st.g1 else st.g2

/-- `lastget` of the gate selected by `w`. -/
def getL (w : Bool) (st : SRState) : Sig := if w then st.l1 else st.l2

/-- Set `ingetvalue` of the gate selected by `w`. -/
def setG (w : Bool) (b : Bool) (st : SRState) : SRState :=
  if w then { st with g1 := b } else { st with g2 := b }

/-- Set `lastget` of the gate selected by `w`. -/
def setL (w : Bool) (v : Sig) (st : SRState) : SRState :=
  if w then { st with l1 := v } else { st with l2 := v }

/-- The `for v in self._input:` loop of the internal gate's `_getvalue`,
over a list of `SRSource`s.  `callOf w'` evaluates the gate referred to by
a device source (`__call__` of `IC1` for `w' = true`, of `IC2` otherwise);
a constant source resolves to its own signal (`_inputState` of a single
source).  `none` signals fuel exhaustion of the underlying evaluator,
never a result of the source program. -/
def gateLoop (callOf : Bool → SRState → Option (Sig × SRState)) (k : GateKind) :
    List SRSource → SRState → Option (Sig × SRState)
  | [], st => some (some k.defVal, st)
  | src :: rest, st =>
    match
      (match src with
       | .const s => some (s, st)
       | .ic1 => callOf true st
       | .ic2 => callOf false st) with
    | none => none
    | some (v, st1) =>
      if k.stop v then some (some k.stopVal, st1)
      else gateLoop callOf k rest st1

/-- `__call__` of the internal gate selected by `w`, with `in1`/`in2` the
input lists of `IC1`/`IC2`.  The `Enable` of the internal gates is the
constructor default `Eval(True)` and is never reassigned, and the enable
test checks the source object's truthiness (see `enableObjTruthy`), so
`__call__` always runs the `recursiontrap`-wrapped `_getvalue`:
if `ingetvalue` is set this is a re-entrant call, which returns `lastget`
and clears the flag; otherwise the flag is set, the gate loop runs, and
the result is stored in `lastget` before the flag is cleared.  `fuel`
bounds the recursion depth; `none` means the fuel ran out. -/
def callDev (k : GateKind) (in1 in2 : List SRSource) :
    Nat → Bool → SRState → Option (Sig × SRState)
  | 0, _, _ => none
  | f + 1, w, st =>
    if getG w st then
      some (getL w st, setG w false st)
    else
      match gateLoop (fun w' st' => callDev k in1 in2 f w' st') k
              (if w then in1 else in2) (setG w true st) with
      | none => none
      | some (v, st2) => some (v, setL w v (setG w false st2))

/-- The input list of `IC1` after `SetInput('R', r)` with a constant
source `r`: `IC1.In = reference, self.IC2` (line 177). -/
def icIn1 (r : Sig) : List SRSource := [.const r, .ic2]

/-- The input list of `IC2` after `SetInput('S', s)` with a constant
source `s`: `IC2.In = reference, self.IC1` (line 179). -/
def icIn2 (s : Sig) : List SRSource := [.const s, .ic1]

/-- Evaluation of `IC1()` (`w = true`, i.e. `Q()`) or `IC2()` (`w = false`,
i.e. `Q_()`) of a latch whose two named inputs are bound to the constant
sources `r` and `s`. -/
def latchCall (k : GateKind) (r s : Sig) (fuel : Nat) (w : Bool) (st : SRState) :
    Option (Sig × SRState) :=
  callDev k (icIn1 r) (icIn2 s) fuel w st

/-- Derived closed form of `latchCall` (a proof artifact, not part of the
source): the value and final state an external `Q()` (`w = true`) or
`Q_()` (`w = false`) call produces on a cross-wired latch, for *any*
sufficient fuel.  Because the guard cuts every cycle on re-entry, the call
tree has depth at most three and the result is fuel-independent — see
`latchCall_closed`. -/
def latchResult (k : GateKind) (r s : Sig) (w : Bool) (st : SRState) : Sig × SRState :=
  if w then
    if st.g1 then (st.l1, { st with g1 := false })
    else if k.stop r then
      (some k.stopVal, { st with g1 := false, l1 := some k.stopVal })
    else if st.g2 then
      let v := if k.stop st.l2 then k.stopVal else k.defVal
      (some v, { st with g1 := false, g2 := false, l1 := some v })
    else if k.stop s then
      let v := if k.stop (some k.stopVal) then k.stopVal else k.defVal
      (some v, { st with g1 := false, g2 := false, l2 := some k.stopVal, l1 := some v })
    else
      let v2 := if k.stop st.l1 then k.stopVal else k.defVal
      let v := if k.stop (some v2) then k.stopVal else k.defVal
      (some v, { st with g1 := false, g2 := false, l2 := some v2, l1 := some v })
  else
    if st.g2 then (st.l2, { st with g2 := false })
    else if k.stop s then
      (some k.stopVal, { st with g2 := false, l2 := some k.stopVal })
    else if st.g1 then
      let v := if k.stop st.l1 then k.stopVal else k.defVal
      (some v, { st with g1 := false, g2 := false, l2 := some v })
    else if k.stop r then
      let v := if k.stop (some k.stopVal) then k.stopVal else k.defVal
      (some v, { st with g1 := false, g2 := false, l1 := some k.stopVal, l2 := some v })
    else
      let v2 := if k.stop st.l2 then k.stopVal else k.defVal
      let v := if k.stop (some v2) then k.stopVal else k.defVal
      (some v, { st with g1 := false, g2 := false, l1 := some v2, l2 := some v })

/-- Python dict assignment `d[name] = src` on an association list
(update in place, or append a new key). -/
def dictSet : List (String × Sig) → String → Sig → List (String × Sig)
  | [], name, src => [(name, src)]
  | (n, v) :: rest, name, src =>
    if n = name then (n, src) :: rest else (n, v) :: dictSet rest name src

/-- A `BoolSRFF` instance (lines 157-189): the gate family of the two
internal gates, the named-input dict, the input lists of `IC1` and `IC2`,
and the pair's guard state.  (The latch's own positional input and guard
fields exist but are unused: `BoolSRFF._getvalue` is *not* decorated with
`recursiontrap` and just returns `IC1()`.) -/
structure BoolSRFF where
  kind : GateKind
  _indict : List (String × Sig)
  ic1In : List SRSource
  ic2In : List SRSource
  st : SRState

/-- `BoolSRFF.__init__` (lines 159-171): named inputs `R`,`S` bound to
`Eval(None)`, two fresh gates of the chosen family with the placeholder
inputs `In = [None]*2` and fresh guards. -/
def srInit (k : GateKind) : BoolSRFF :=
  { kind := k
    _indict := [("R", none), ("S", none)]
    ic1In := [.const none, .const none]
    ic2In := [.const none, .const none]
    st := { g1 := false, l1 := none, g2 := false, l2 := none } }

/-- `BoolSRFF.SetInput` (lines 174-179) with a constant source: store the
binding, then rewire `IC1.In = reference, IC2` for `R`, or
`IC2.In = reference, IC1` for `S`. -/
def srSetInput (ff : BoolSRFF) (name : String) (src : Sig) : BoolSRFF :=
  let ff1 := { ff with _indict := dictSet ff._indict name src }
  if name = "R" then { ff1 with ic1In := icIn1 src }
  else if name = "S" then { ff1 with ic2In := icIn2 src }
  else ff1

/-- `Q()` (lines 188-189 via the undecorated `_getvalue`, line 182-183):
evaluate `IC1()`. -/
def srQ (ff : BoolSRFF) (fuel : Nat) : Option (Sig × BoolSRFF) :=
  match callDev ff.kind ff.ic1In ff.ic2In fuel true ff.st with
  | none => none
  | some (v, st1) => some (v, { ff with st := st1 })

/-- `Q_()` (lines 185-186): evaluate `IC2()`. -/
def srQ_ (ff : BoolSRFF) (fuel : Nat) : Option (Sig × BoolSRFF) :=
  match callDev ff.kind ff.ic1In ff.ic2In fuel false ff.st with
  | none => none
  | some (v, st1) => some (v, { ff with st := st1 })

/-- Evaluate `Q()` then `Q_()` (threading the mutated guard state) and
return the pair of results. -/
def srQQ (ff : BoolSRFF) : Option (Sig × Sig) :=
  match srQ ff 3 with
  | none => none
  | some (q, ff1) =>
    match srQ_ ff1 3 with
    | none => none
    | some (q2, _) => some (q, q2)

/-- Run a sequence of external calls on a latch: `true` = `Q()`,
`false` = `Q_()`; returns the observed values and the final state. -/
def runCalls (ff : BoolSRFF) : List Bool → Option (List Sig × BoolSRFF)
  | [] => some ([], ff)
  | w :: ws =>
    match (if w then srQ ff 3 else srQ_ ff 3) with
    | none => none
    | some (v, ff1) =>
      match runCalls ff1 ws with
      | none => none
      | some (vs, ff2) => some (v :: vs, ff2)

/-- A settled guard state of the internal pair: both flags clear, `IC1`
caching `b` and `IC2` caching `¬b` (`b = true` is the Set state reached in
the `C3` scenario, `b = false` the Reset state). -/
def srSettled (b : Bool) : SRState :=
  { g1 := false, l1 := some b, g2 := false, l2 := some (!b) }

/-! ## The JK flip-flop (`BoolJKFF`, lines 192-227) -/

/-- A `BoolJKFF` instance: the three named inputs (always present in
`_indict`, initialised by the base constructor), any further `_indict`
entries created by `SetInput` with an unknown name, the input lists of the
gating gates `ICJ`/`ICK` (constant sources only — they are never rewired),
and instrumentation counting executions of the debug `print` on line 216.
`IC1.In = ICJ, IC2` and `IC2.In = ICK, IC1` are fixed at construction and
never touched by `SetInput`, so they are not part of the mutable state
needed here. -/
structure BoolJKFF where
  J : Sig
  K : Sig
  CLK : Sig
  extraInputs : List (String × Sig)
  icjIn : List Sig
  ickIn : List Sig
  printCount : Nat
deriving DecidableEq, Repr

/-- `BoolJKFF.__init__` (lines 194-209): named inputs `J`,`K`,`CLK` bound
to `Eval(None)`; `ICJ = BoolNAND()` and `ICK = BoolNAND()` keep their
constructor placeholder `In = [None]*2`. -/
def jkInit : BoolJKFF :=
  { J := none, K := none, CLK := none
    extraInputs := []
    icjIn := [none, none]
    ickIn := [none, none]
    printCount := 0 }

/-- `BoolJKFF.SetInput` (lines 211-218) with a constant source: store the
named binding (`self._indict[inputname] = self.Eval(reference)` accepts
any name), then `for i in ['J','K','CLK']: if self._indict[i]() is None:
return` — an early return while any of the three resolves floating.  When
all three are non-floating the `print` on line 216 runs; the two
statements that would rewire `ICJ.In` and `ICK.In` (lines 217-218) are
commented out in the source, so no rewiring ever happens. -/
def jkSetInput (ff : BoolJKFF) (name : String) (src : Sig) : BoolJKFF :=
  let ff1 :=
    if name = "J" then { ff with J := src }
    else if name = "K" then { ff with K := src }
    else if name = "CLK" then { ff with CLK := src }
    else { ff with extraInputs := dictSet ff.extraInputs name src }
  if ff1.J = none then ff1
  else if ff1.K = none then ff1
  else if ff1.CLK = none then ff1
  else { ff1 with printCount := ff1.printCount + 1 }

/-- Apply a sequence of `SetInput` calls to a JK flip-flop. -/
def jkApply (ff : BoolJKFF) : List (String × Sig) → BoolJKFF
  | [] => ff
  | (name, src) :: rest => jkApply (jkSetInput ff name src) rest

/-! ## Helper lemmas -/

/-- Resolving a single source yields the signal it produces: no conflict is
possible with one scalar. -/
theorem inputState_single (s : Sig) : _inputState (.single s) = .ok s := by
  cases s with
  | none => rfl
  | some b => cases b <;> rfl

/-- `lookup` over the dict built by `__init__` from a named-input list. -/
theorem lookup_init_names (names : List String) (name : String) (h : name ∈ names) :
    (names.map (fun n => (n, (none : Sig)))).lookup name = some none := by
  induction names with
  | nil => cases h
  | cons n0 rest ih =>
    by_cases he : name = n0
    · subst he; simp [List.lookup]
    · have hmem : name ∈ rest := by
        rcases List.mem_cons.mp h with h1 | h2
        · exact absurd h1 he
        · exact h2
      have hb : (name == n0) = false := by simp [he]
      simpa [List.lookup, hb] using ih hmem

/-- `BoolAND._getvalue` over boolean-resolving constant sources computes
the conjunction. -/
theorem boolAND_ok (bs : List Bool) :
    boolANDgetvalue (bs.map some) = .ok (some (bs.all id)) := by
  induction bs with
  | nil => rfl
  | cons b tl ih => cases b <;> simp [boolANDgetvalue, inputState_single, truthy, ih]

/-- `BoolNOR._getvalue` over boolean-resolving constant sources computes
the negated disjunction. -/
theorem boolNOR_ok (bs : List Bool) :
    boolNORgetvalue (bs.map some) = .ok (some (!(bs.any id))) := by
  induction bs with
  | nil => rfl
  | cons b tl ih => cases b <;> simp [boolNORgetvalue, inputState_single, truthy, ih]

/-- `BoolNAND._getvalue` over boolean-resolving constant sources computes
the negated conjunction. -/
theorem boolNAND_ok (bs : List Bool) :
    boolNANDgetvalue (bs.map some) = .ok (some (!(bs.all id))) := by
  induction bs with
  | nil => rfl
  | cons b tl ih => cases b <;> simp [boolNANDgetvalue, inputState_single, truthy, ih]

/-! ## Claim theorems -/

/-- C1: the `recursiontrap` guard contract.  A re-entrant call (guard
already marked in-evaluation) returns the stored `lastget` immediately,
clears the mark, and is independent of the wrapped value function (it is
not invoked: the result does not mention the handler).  A non-re-entrant
call sets the mark, runs the value function, stores its result in
`lastget`, clears the mark, and returns that result. -/
theorem C1_recursiontrap_contract {α σ : Type}
    (h h2 : TrapState α σ → α × TrapState α σ) (s : TrapState α σ) :
    (s.ingetvalue = true →
      trapmagic h s = (s.lastget, { s with ingetvalue := false }) ∧
      trapmagic h s = trapmagic h2 s) ∧
    (s.ingetvalue = false →
      trapmagic h s =
        ((h { s with ingetvalue := true }).1,
         { (h { s with ingetvalue := true }).2 with
             lastget := (h { s with ingetvalue := true }).1, ingetvalue := false })) := by
  constructor
  · intro hin
    constructor <;> simp [trapmagic, hin]
  · intro hin
    simp [trapmagic, hin]

/-- Witness for C1: both branches at concrete inputs (a re-entrant call
returning the cached value, a fresh call running the handler). -/
theorem C1_recursiontrap_contract_witness :
    trapmagic (fun st : TrapState Sig Unit => (some true, st)) ⟨true, some false, ()⟩ =
      (some false, ⟨false, some false, ()⟩) ∧
    trapmagic (fun st : TrapState Sig Unit => (some true, st)) ⟨false, none, ()⟩ =
      (some true, ⟨false, some true, ()⟩) :=
  ⟨((C1_recursiontrap_contract (fun st : TrapState Sig Unit => (some true, st))
      (fun st => (some false, st)) ⟨true, some false, ()⟩).1 rfl).1,
   (C1_recursiontrap_contract (fun st : TrapState Sig Unit => (some true, st))
      (fun st => (some false, st)) ⟨false, none, ()⟩).2 rfl⟩

/-- C3: SR latch with the default `BoolNOR` gate pair.  After
`SetInput("S", true)` and `SetInput("R", false)` on a fresh latch,
`Q()` is `True` and `Q_()` is `False`; symmetrically for Set=false,
Reset=true. -/
theorem C3_sr_set_reset :
    srQQ (srSetInput (srSetInput (srInit norKind) "S" (some true)) "R" (some false)) =
      some (some true, some false) ∧
    srQQ (srSetInput (srSetInput (srInit norKind) "S" (some false)) "R" (some true)) =
      some (some false, some true) :=
  ⟨rfl, rfl⟩

/-- C4 (code bug): `__call__` tests the Python truthiness of the
`Eval`-wrapped enable *source object*, which is always truthy, so even
with `Enable = False` the device does not return `Floating`: a `BoolNOT`
with a floating input and `Enable` set to `False` returns `True` and its
`_getvalue` body runs (the instrumentation counter increments). -/
theorem C4_enable_false_ignored :
    notCall { _enable := some false, input0 := none, ingetvalue := false,
              lastget := none, getvalueCalls := 0 } =
      .ok (some true, { _enable := some false, input0 := none, ingetvalue := false,
                        lastget := some true, getvalueCalls := 1 }) ∧
    (some true : Sig) ≠ (none : Sig) :=
  ⟨rfl, by decide⟩

/-- C5 (code bug): `_inputState` applied to an actual list of sources
raises an uncaught `TypeError` (because `inputs = [].extend(value)` binds
`None`), both for a conflicting list and for an all-floating list — it
neither raises `Conflict` nor returns `Floating`.  The counting logic the
function was meant to run (lines 75-85, embedded as `resolveScalars`)
would have produced the claimed results. -/
theorem C5_inputState_on_list :
    _inputState (.listOf [some true, some false]) = .error .typeError ∧
    _inputState (.listOf [none, none]) = .error .typeError ∧
    .error .typeError ≠ (.error .conflict : Except PyErr Sig) ∧
    resolveScalars [some true, some false] = .error .conflict ∧
    resolveScalars [none, none] = .ok none :=
  ⟨rfl, rfl, by simp, rfl, rfl⟩

/-- C8: gate truth tables.  Over any number (≥ 2) and order of inputs
wired to boolean-resolving constant sources, AND computes the conjunction,
NAND the negated conjunction, NOR the negated disjunction; NOT negates its
single input and yields `True` on a floating input. -/
theorem C8_gate_truth_tables (bs : List Bool) :
    2 ≤ bs.length →
    (boolANDgetvalue (bs.map some) = .ok (some (bs.all id)) ∧
     boolNANDgetvalue (bs.map some) = .ok (some (!(bs.all id))) ∧
     boolNORgetvalue (bs.map some) = .ok (some (!(bs.any id)))) ∧
    (∀ b : Bool, boolNOTgetvalue (some b) = .ok (some (!b))) ∧
    boolNOTgetvalue none = .ok (some true) := by
  intro _
  refine ⟨⟨boolAND_ok bs, boolNAND_ok bs, boolNOR_ok bs⟩, ?_, rfl⟩
  intro b
  cases b <;> rfl

/-- Witness for C8 at the two-input list `[true, false]`. -/
theorem C8_gate_truth_tables_witness :
    2 ≤ ([true, false] : List Bool).length ∧
    (boolANDgetvalue [some true, some false] = .ok (some false) ∧
     boolNANDgetvalue [some true, some false] = .ok (some true) ∧
     boolNORgetvalue [some true, some false] = .ok (some false)) :=
  ⟨by decide, ⟨(C8_gate_truth_tables [true, false] (by decide)).1.1,
    (C8_gate_truth_tables [true, false] (by decide)).1.2.1,
    (C8_gate_truth_tables [true, false] (by decide)).1.2.2⟩⟩

/-- C9 counterexample: a multi-input device (declared minimum 2, as
passed by `_BoolMultiInput.__init__`) can be rewired through the `In`
setter with an empty sequence: no error of any kind is raised (the setter
is total) and `inputs` ends up shorter than the declared minimum — there
is no `ArityViolation` in the code. -/
theorem C9_arity_counterexample :
    (setIn (mkBoolDevice 2 []) (.seq []))._input.length = 0 ∧ 0 < 2 :=
  ⟨rfl, by decide⟩

/-- C9 (amended): construction does initialize `inputs` with exactly the
declared minimum number of (floating placeholder) sources, but the `In`
setter performs no arity check: assigning a sequence of any length `m`
(including `m` below the minimum) succeeds without error and leaves
`inputs` of length `m`; a single non-iterable source yields length 1. -/
theorem C9_arity_amended (n : Nat) (names : List String) :
    (mkBoolDevice n names)._input.length = n ∧
    (∀ (d : DeviceInit) (ss : List Sig), (setIn d (.seq ss))._input.length = ss.length) ∧
    (∀ (d : DeviceInit) (s : Sig), (setIn d (.single s))._input.length = 1) := by
  refine ⟨?_, ?_, ?_⟩
  · simp [mkBoolDevice]
  · intro d ss; rfl
  · intro d s; rfl

/-- C10: a freshly constructed device has every declared named input bound
to a constant floating source — `GetInput` returns `Floating` for each
declared name — and each of the `mininputqty` positional slots holds a
source resolving to `Floating`. -/
theorem C10_fresh_device_floating (n : Nat) (names : List String) (name : String) :
    (name ∈ names → deviceGetInput (mkBoolDevice n names) name = some (.ok none)) ∧
    (∀ src ∈ (mkBoolDevice n names)._input, _inputState (.single src) = .ok none) := by
  constructor
  · intro h
    simp [deviceGetInput, mkBoolDevice, lookup_init_names names name h, inputState_single]
  · intro src hsrc
    have : src = none := List.eq_of_mem_replicate hsrc
    simp [this, inputState_single]

/-- Witness for C10 on a device shaped like the SR latch base
(`mininputqty = 1`, named inputs `R`,`S`). -/
theorem C10_fresh_device_floating_witness :
    deviceGetInput (mkBoolDevice 1 ["R", "S"]) "S" = some (.ok none) ∧
    _inputState (.single none) = .ok none :=
  ⟨(C10_fresh_device_floating 1 ["R", "S"] "S").1 (by simp),
   (C10_fresh_device_floating 1 ["R", "S"] "S").2 none (by simp [mkBoolDevice])⟩

/-- `BoolJKFF.SetInput` never touches the gating gates' inputs: the
rewiring statements on lines 217-218 are commented out in the source. -/
theorem jkSetInput_gating (ff : BoolJKFF) (name : String) (src : Sig) :
    (jkSetInput ff name src).icjIn = ff.icjIn ∧
    (jkSetInput ff name src).ickIn = ff.ickIn := by
  by_cases h1 : name = "J" <;> by_cases h2 : name = "K" <;> by_cases h3 : name = "CLK" <;>
    simp [jkSetInput, h1, h2, h3] <;>
    (try (constructor <;> (repeat' split) <;> rfl))

/-- Iterated `SetInput` calls never touch the gating gates' inputs. -/
theorem jkApply_gating (calls : List (String × Sig)) : ∀ ff : BoolJKFF,
    (jkApply ff calls).icjIn = ff.icjIn ∧ (jkApply ff calls).ickIn = ff.ickIn := by
  induction calls with
  | nil => intro ff; exact ⟨rfl, rfl⟩
  | cons c rest ih =>
    intro ff
    obtain ⟨hj, hk⟩ := jkSetInput_gating ff c.1 c.2
    obtain ⟨hj2, hk2⟩ := ih (jkSetInput ff c.1 c.2)
    exact ⟨by simpa [jkApply, hj] using hj2, by simpa [jkApply, hk] using hk2⟩

/-- C7 counterexample: bind all three named inputs of a fresh JK flip-flop
to non-floating constants.  The third `SetInput` call does take the
"all inputs bound" path (the debug print runs: `printCount = 1`), yet the
gating gates `ICJ`/`ICK` still have the constructor's two floating
placeholder inputs — the claimed rewiring (three sources: latch output,
named input, clock) did not happen. -/
theorem C7_jk_rewiring_counterexample :
    (jkSetInput (jkSetInput (jkSetInput jkInit "J" (some true)) "K" (some false))
        "CLK" (some true)).icjIn = [none, none] ∧
    (jkSetInput (jkSetInput (jkSetInput jkInit "J" (some true)) "K" (some false))
        "CLK" (some true)).ickIn = [none, none] ∧
    (jkSetInput (jkSetInput (jkSetInput jkInit "J" (some true)) "K" (some false))
        "CLK" (some true)).printCount = 1 ∧
    (jkSetInput (jkSetInput (jkSetInput jkInit "J" (some true)) "K" (some false))
        "CLK" (some true)).J = some true ∧
    (jkSetInput (jkSetInput (jkSetInput jkInit "J" (some true)) "K" (some false))
        "CLK" (some true)).K = some false ∧
    (jkSetInput (jkSetInput (jkSetInput jkInit "J" (some true)) "K" (some false))
        "CLK" (some true)).CLK = some true := by
  decide

/-- C7 (amended): `BoolJKFF.SetInput` stores the named binding and never
raises (it is a total function), whether or not the named inputs are
floating; but it never completes any internal rewiring: after any sequence
of `SetInput` calls the gating gates `ICJ` and `ICK` keep the
constructor's floating placeholder inputs (the rewiring statements are
commented out in the source; only a debug print distinguishes the
"all three bound" path). -/
theorem C7_jk_setinput_amended :
    (∀ calls : List (String × Sig),
      (jkApply jkInit calls).icjIn = [none, none] ∧
      (jkApply jkInit calls).ickIn = [none, none]) ∧
    (∀ (ff : BoolJKFF) (src : Sig),
      (jkSetInput ff "J" src).J = src ∧
      (jkSetInput ff "K" src).K = src ∧
      (jkSetInput ff "CLK" src).CLK = src) := by
  constructor
  · intro calls
    obtain ⟨hj, hk⟩ := jkApply_gating calls jkInit
    exact ⟨by simpa [jkInit] using hj, by simpa [jkInit] using hk⟩
  · intro ff src
    refine ⟨?_, ?_, ?_⟩ <;> simp [jkSetInput] <;> (try ((repeat' split) <;> rfl))

/-- Evaluating `IC1()` of a NOR latch in a settled hold configuration
(both named inputs constant `False`) returns the cached `IC1` value and
restores exactly the settled state. -/
theorem holdCallQ (b : Bool) :
    callDev norKind (icIn1 (some false)) (icIn2 (some false)) 3 true (srSettled b) =
      some (some b, srSettled b) := by
  cases b <;> rfl

/-- Evaluating `IC2()` of a NOR latch in a settled hold configuration
returns the cached `IC2` value and restores exactly the settled state. -/
theorem holdCallQ2 (b : Bool) :
    callDev norKind (icIn1 (some false)) (icIn2 (some false)) 3 false (srSettled b) =
      some (some (!b), srSettled b) := by
  cases b <;> rfl

/-- `Q()` on a hold-wired, settled NOR latch returns the cached value and
leaves the latch unchanged. -/
theorem srQ_hold (d : List (String × Sig)) (b : Bool) :
    srQ ⟨norKind, d, icIn1 (some false), icIn2 (some false), srSettled b⟩ 3 =
      some (some b, ⟨norKind, d, icIn1 (some false), icIn2 (some false), srSettled b⟩) := by
  simp only [srQ, holdCallQ]

/-- `Q_()` on a hold-wired, settled NOR latch returns the complementary
cached value and leaves the latch unchanged. -/
theorem srQ2_hold (d : List (String × Sig)) (b : Bool) :
    srQ_ ⟨norKind, d, icIn1 (some false), icIn2 (some false), srSettled b⟩ 3 =
      some (some (!b), ⟨norKind, d, icIn1 (some false), icIn2 (some false), srSettled b⟩) := by
  simp only [srQ_, holdCallQ2]

/-- Any sequence of `Q()`/`Q_()` calls on a hold-wired, settled NOR latch
returns the settled values and never changes the latch. -/
theorem runCalls_hold (calls : List Bool) (d : List (String × Sig)) (b : Bool) :
    runCalls ⟨norKind, d, icIn1 (some false), icIn2 (some false), srSettled b⟩ calls =
      some (calls.map (fun w => if w then some b else some (!b)),
        ⟨norKind, d, icIn1 (some false), icIn2 (some false), srSettled b⟩) := by
  induction calls with
  | nil => rfl
  | cons w ws ih =>
    cases w
    · simp only [runCalls, Bool.false_eq_true, if_false, srQ2_hold d b, ih, List.map_cons]
    · simp only [runCalls, if_true, srQ_hold d b, ih, List.map_cons]

/-- C6: SR latch hold.  Take a NOR latch whose internal pair has settled
(both guard flags clear, `IC1` caching `b`, `IC2` caching `¬b` — e.g. the
Set state for `b = true`), rebind both named inputs `R` and `S` to the
constant `False`, and make any sequence of `Q()`/`Q_()` calls: every
`Q()` returns the settled value `b`, every `Q_()` returns `¬b`, and the
latch state never changes. -/
theorem C6_sr_hold (ff0 : BoolSRFF) (b : Bool) (calls : List Bool)
    (hk : ff0.kind = norKind) (hst : ff0.st = srSettled b) :
    runCalls (srSetInput (srSetInput ff0 "R" (some false)) "S" (some false)) calls =
      some (calls.map (fun w => if w then some b else some (!b)),
        srSetInput (srSetInput ff0 "R" (some false)) "S" (some false)) := by
  obtain ⟨k0, d0, a0, c0, st0⟩ := ff0
  have hk' : k0 = norKind := hk
  have hst' : st0 = srSettled b := hst
  subst hk'
  subst hst'
  have he : srSetInput (srSetInput ⟨norKind, d0, a0, c0, srSettled b⟩ "R" (some false))
      "S" (some false) =
      ⟨norKind, dictSet (dictSet d0 "R" (some false)) "S" (some false),
        icIn1 (some false), icIn2 (some false), srSettled b⟩ := rfl
  rw [he]
  exact runCalls_hold calls _ b

/-- Witness for C6: a latch settled in the Set state, held with both
inputs `False`, observed through the call sequence `Q, Q_, Q`. -/
theorem C6_sr_hold_witness :
    runCalls (srSetInput (srSetInput { srInit norKind with st := srSettled true }
        "R" (some false)) "S" (some false)) [true, false, true] =
      some ([some true, some false, some true],
        srSetInput (srSetInput { srInit norKind with st := srSettled true }
          "R" (some false)) "S" (some false)) :=
  C6_sr_hold { srInit norKind with st := srSettled true } true [true, false, true] rfl rfl

/-- With any fuel of at least three, an external call on a cross-wired
latch evaluates to the fuel-independent closed form `latchResult`. -/
theorem latchCall_closed (k : GateKind) (r s : Sig) (w : Bool) (st : SRState) (n : Nat) :
    latchCall k r s (n+1+1+1) w st = some (latchResult k r s w st) := by
  cases w <;>
    by_cases h1 : st.g1 <;> by_cases h2 : st.g2 <;>
    by_cases hr : k.stop r <;> by_cases hs : k.stop s <;>
    by_cases hl1 : k.stop st.l1 <;> by_cases hl2 : k.stop st.l2 <;>
    by_cases hsv : k.stop (some k.stopVal) <;> by_cases hdv : k.stop (some k.defVal) <;>
    simp [latchCall, latchResult, callDev, gateLoop, icIn1, icIn2, getG, getL, setG, setL,
      h1, h2, hr, hs, hl1, hl2, hsv, hdv]

/-- C2: every external `Q()` (`w = true`) or `Q_()` (`w = false`) call on a
cross-wired two-gate feedback loop — IC1 wired to a constant source and
IC2, IC2 wired to a constant source and IC1, as the SR latch is after both
`SetInput`s — terminates with a bounded number of evaluation steps: any
fuel of at least three produces a result (`some`), and the result is
independent of the fuel, for every gate family, constant sources, and
starting guard state.  The per-device guard cuts the cycle on re-entry, so
the fueled embedding is total from fuel three up. -/
theorem C2_latch_evaluation_total (k : GateKind) (r s : Sig) (w : Bool) (st : SRState)
    (f g : Nat) :
    latchCall k r s (f+3) w st = latchCall k r s (g+3) w st ∧
    ∃ p, latchCall k r s (f+3) w st = some p := by
  have hf : latchCall k r s (f+1+1+1) w st = some (latchResult k r s w st) :=
    latchCall_closed k r s w st f
  have hg : latchCall k r s (g+1+1+1) w st = some (latchResult k r s w st) :=
    latchCall_closed k r s w st g
  exact ⟨hf.trans hg.symm, ⟨_, hf⟩⟩
